import Mathlib

/-!
Shallow embedding of the `sqlwrapper` Go package (file `wrapper.go` of the
go-gorm-wrapper repository): a pass-through adapter exposing the gorm ORM's
query-builder API behind a local interface.

The wrapped ORM (gorm) is external to the repository, so it is modelled
symbolically: a gorm handle (`GormDB`) records, in `hist`, the lineage of
builder calls that produced it, and an environment of oracle functions
(`GormEnv`) supplies the results of the non-chainable ORM operations
(errors, row handles, field reads), which the repository's code never
inspects beyond forwarding.  The wrapper code itself (`sql` and its
methods, `NewSql`, `InitSql`, `Migrate`, `Seed`, ...) is translated
method-by-method from `wrapper.go`.
-/

namespace sqlwrapper

/-- Go `interface` values handed to the ORM: integer, string and boolean
atoms, and slices of values (a Go `[]interface` slice passed as a single
value is a `vlist`). -/
inductive Val where
  | vint : Int → Val
  | vstr : String → Val
  | vbool : Bool → Val
  | vlist : List Val → Val

mutual

/-- Decidable equality on `Val`, by mutual recursion with lists of values. -/
def Val.decEq : (a b : Val) → Decidable (a = b)
  | .vint x, .vint y =>
    if h : x = y then .isTrue (h ▸ rfl)
    else .isFalse (fun hh => by cases hh; exact h rfl)
  | .vint _, .vstr _ => .isFalse (fun h => Val.noConfusion h)
  | .vint _, .vbool _ => .isFalse (fun h => Val.noConfusion h)
  | .vint _, .vlist _ => .isFalse (fun h => Val.noConfusion h)
  | .vstr _, .vint _ => .isFalse (fun h => Val.noConfusion h)
  | .vstr x, .vstr y =>
    if h : x = y then .isTrue (h ▸ rfl)
    else .isFalse (fun hh => by cases hh; exact h rfl)
  | .vstr _, .vbool _ => .isFalse (fun h => Val.noConfusion h)
  | .vstr _, .vlist _ => .isFalse (fun h => Val.noConfusion h)
  | .vbool _, .vint _ => .isFalse (fun h => Val.noConfusion h)
  | .vbool _, .vstr _ => .isFalse (fun h => Val.noConfusion h)
  | .vbool x, .vbool y =>
    if h : x = y then .isTrue (h ▸ rfl)
    else .isFalse (fun hh => by cases hh; exact h rfl)
  | .vbool _, .vlist _ => .isFalse (fun h => Val.noConfusion h)
  | .vlist _, .vint _ => .isFalse (fun h => Val.noConfusion h)
  | .vlist _, .vstr _ => .isFalse (fun h => Val.noConfusion h)
  | .vlist _, .vbool _ => .isFalse (fun h => Val.noConfusion h)
  | .vlist xs, .vlist ys =>
    match Val.decEqList xs ys with
    | .isTrue h => .isTrue (h ▸ rfl)
    | .isFalse h => .isFalse (fun hh => by cases hh; exact h rfl)

/-- Decidable equality on lists of `Val`. -/
def Val.decEqList : (a b : List Val) → Decidable (a = b)
  | [], [] => .isTrue rfl
  | [], _ :: _ => .isFalse (fun h => List.noConfusion h)
  | _ :: _, [] => .isFalse (fun h => List.noConfusion h)
  | x :: xs, y :: ys =>
    match Val.decEq x y, Val.decEqList xs ys with
    | .isTrue h1, .isTrue h2 => .isTrue (by rw [h1, h2])
    | .isFalse h1, _ => .isFalse (fun hh => by cases hh; exact h1 rfl)
    | .isTrue _, .isFalse h2 => .isFalse (fun hh => by cases hh; exact h2 rfl)

end

instance : DecidableEq Val := Val.decEq

/-- One invocation of a gorm method, recording the gorm method's name (as
the constructor) and the exact arguments the wrapper handed to it.  The
constructors are the gorm methods that `wrapper.go` invokes. -/
inductive GCall where
  | Where (query : Val) (args : List Val)
  | Or (query : Val) (args : List Val)
  | Not (query : Val) (args : List Val)
  | Limit (value : Int)
  | Offset (value : Int)
  | Order (value : String)
  | Select (query : Val) (args : List Val)
  | Omit (columns : List String)
  | Group (query : String)
  | Having (query : String) (values : List Val)
  | Joins (query : String) (args : List Val)
  | Scopes (count : Nat)
  | Unscoped
  | Attrs (attrs : List Val)
  | Assign (attrs : List Val)
  | First (out : Val) (wh : List Val)
  | Last (out : Val) (wh : List Val)
  | Find (out : Val) (wh : List Val)
  | Scan (dest : Val)
  | Pluck (column : String) (value : Val)
  | Count
  | FirstOrInit (out : Val) (wh : List Val)
  | FirstOrCreate (out : Val) (wh : List Val)
  | Update (column : String) (value : Val)
  | Updates (values : Val)
  | UpdateColumn (column : String) (value : Val)
  | UpdateColumns (values : Val)
  | Save (value : Val)
  | Create (value : Val)
  | Delete (value : Val) (wh : List Val)
  | Raw (sql : String) (values : List Val)
  | Exec (sql : String) (values : List Val)
  | Model (value : Val)
  | Table (name : String)
  | Debug
  | Begin
  | Commit
  | Rollback
  | Preload (column : String) (conditions : List Val)
  | Set (name : String) (value : Val)
  | InstanceSet (name : String) (value : Val)
  | SetupJoinTable (model : Val) (column : String) (handler : Val)
deriving DecidableEq

/-- The name of the gorm method that a recorded call invoked. -/
def GCall.name : GCall → String
  | .Where _ _ => "Where"
  | .Or _ _ => "Or"
  | .Not _ _ => "Not"
  | .Limit _ => "Limit"
  | .Offset _ => "Offset"
  | .Order _ => "Order"
  | .Select _ _ => "Select"
  | .Omit _ => "Omit"
  | .Group _ => "Group"
  | .Having _ _ => "Having"
  | .Joins _ _ => "Joins"
  | .Scopes _ => "Scopes"
  | .Unscoped => "Unscoped"
  | .Attrs _ => "Attrs"
  | .Assign _ => "Assign"
  | .First _ _ => "First"
  | .Last _ _ => "Last"
  | .Find _ _ => "Find"
  | .Scan _ => "Scan"
  | .Pluck _ _ => "Pluck"
  | .Count => "Count"
  | .FirstOrInit _ _ => "FirstOrInit"
  | .FirstOrCreate _ _ => "FirstOrCreate"
  | .Update _ _ => "Update"
  | .Updates _ => "Updates"
  | .UpdateColumn _ _ => "UpdateColumn"
  | .UpdateColumns _ => "UpdateColumns"
  | .Save _ => "Save"
  | .Create _ => "Create"
  | .Delete _ _ => "Delete"
  | .Raw _ _ => "Raw"
  | .Exec _ _ => "Exec"
  | .Model _ => "Model"
  | .Table _ => "Table"
  | .Debug => "Debug"
  | .Begin => "Begin"
  | .Commit => "Commit"
  | .Rollback => "Rollback"
  | .Preload _ _ => "Preload"
  | .Set _ _ => "Set"
  | .InstanceSet _ _ => "InstanceSet"
  | .SetupJoinTable _ _ _ => "SetupJoinTable"

/-- Oracle environment for the parts of gorm's behaviour that the wrapper
only forwards and never computes: each field gives the library's answer as
a function of the call history of the handle it is asked on. -/
structure GormEnv where
  /-- the `Error` field of a `gorm.DB` handle -/
  errorF : List GCall → Option String
  /-- the `RowsAffected` field of a `gorm.DB` handle -/
  rowsAffectedF : List GCall → Int
  /-- result of `Row()` (an opaque `sql.Row` handle) -/
  rowF : List GCall → Nat
  /-- result of `Rows()` (an opaque `sql.Rows` handle and an error) -/
  rowsF : List GCall → Nat × Option String
  /-- result of `ScanRows(rows, result)` -/
  scanRowsF : List GCall → Nat → Val → Option String
  /-- result of `Get(name)` -/
  getF : List GCall → String → Val × Bool
  /-- error result of `SetupJoinTable(model, column, handler)` -/
  setupJoinTableF : List GCall → Val → String → Val → Option String
  /-- result of `AddError(err)` -/
  addErrorF : List GCall → String → Option String
  /-- error result of `AutoMigrate(values...)` -/
  autoMigrateF : List GCall → List Val → Option String
  /-- result of `Association(column)` (an opaque handle) -/
  associationF : List GCall → String → Nat
  /-- error result of `DB()` (retrieving the `sql.DB` connection) -/
  dbConnF : List GCall → Except String Unit
  /-- error result of `Close()` on the retrieved connection -/
  closeF : List GCall → Option String

/-- A symbolic `gorm.DB` handle: the history of builder calls that produced
it, together with the behaviour oracle of the library. -/
structure GormDB where
  hist : List GCall
  env : GormEnv

/-- The handle obtained from `db` by one more builder call `c`. -/
def GormDB.push (db : GormDB) (c : GCall) : GormDB :=
  { db with hist := db.hist ++ [c] }

namespace Gorm

/-- Symbolic model of the chainable gorm method `Where`. -/
def Where (db : GormDB) (query : Val) (args : List Val) : GormDB :=
  db.push (GCall.Where query args)

/-- Symbolic model of the chainable gorm method `Or`. -/
def Or (db : GormDB) (query : Val) (args : List Val) : GormDB :=
  db.push (GCall.Or query args)

/-- Symbolic model of the chainable gorm method `Not`. -/
def Not (db : GormDB) (query : Val) (args : List Val) : GormDB :=
  db.push (GCall.Not query args)

/-- Symbolic model of the chainable gorm method `Limit`. -/
def Limit (db : GormDB) (value : Int) : GormDB :=
  db.push (GCall.Limit value)

/-- Symbolic model of the chainable gorm method `Offset`. -/
def Offset (db : GormDB) (value : Int) : GormDB :=
  db.push (GCall.Offset value)

/-- Symbolic model of the chainable gorm method `Order`. -/
def Order (db : GormDB) (value : String) : GormDB :=
  db.push (GCall.Order value)

/-- Symbolic model of the chainable gorm method `Select`. -/
def Select (db : GormDB) (query : Val) (args : List Val) : GormDB :=
  db.push (GCall.Select query args)

/-- Symbolic model of the chainable gorm method `Omit`. -/
def Omit (db : GormDB) (columns : List String) : GormDB :=
  db.push (GCall.Omit columns)

/-- Symbolic model of the chainable gorm method `Group`. -/
def Group (db : GormDB) (query : String) : GormDB :=
  db.push (GCall.Group query)

/-- Symbolic model of the chainable gorm method `Having`. -/
def Having (db : GormDB) (query : String) (values : List Val) : GormDB :=
  db.push (GCall.Having query values)

/-- Symbolic model of the chainable gorm method `Joins`. -/
def Joins (db : GormDB) (query : String) (args : List Val) : GormDB :=
  db.push (GCall.Joins query args)

/-- Symbolic model of the chainable gorm method `Scopes`: the scope
closures are functions, which the first-order call record cannot store, so
the record keeps their number; the exact closure list handed to the
library appears in the equations about the wrapper's `Scopes`. -/
def Scopes (db : GormDB) (scopes : List (GormDB → GormDB)) : GormDB :=
  db.push (GCall.Scopes scopes.length)

/-- Symbolic model of the chainable gorm method `Unscoped`. -/
def Unscoped (db : GormDB) : GormDB :=
  db.push GCall.Unscoped

/-- Symbolic model of the chainable gorm method `Attrs`. -/
def Attrs (db : GormDB) (attrs : List Val) : GormDB :=
  db.push (GCall.Attrs attrs)

/-- Symbolic model of the chainable gorm method `Assign`. -/
def Assign (db : GormDB) (attrs : List Val) : GormDB :=
  db.push (GCall.Assign attrs)

/-- Symbolic model of the chainable gorm method `First`. -/
def First (db : GormDB) (out : Val) (wh : List Val) : GormDB :=
  db.push (GCall.First out wh)

/-- Symbolic model of the chainable gorm method `Last`. -/
def Last (db : GormDB) (out : Val) (wh : List Val) : GormDB :=
  db.push (GCall.Last out wh)

/-- Symbolic model of the chainable gorm method `Find`. -/
def Find (db : GormDB) (out : Val) (wh : List Val) : GormDB :=
  db.push (GCall.Find out wh)

/-- Symbolic model of the chainable gorm method `Scan`. -/
def Scan (db : GormDB) (dest : Val) : GormDB :=
  db.push (GCall.Scan dest)

/-- Symbolic model of the chainable gorm method `Pluck`. -/
def Pluck (db : GormDB) (column : String) (value : Val) : GormDB :=
  db.push (GCall.Pluck column value)

/-- Symbolic model of the chainable gorm method `Count` (the `int64`
out-parameter it fills is not modelled). -/
def Count (db : GormDB) : GormDB :=
  db.push GCall.Count

/-- Symbolic model of the chainable gorm method `FirstOrInit`. -/
def FirstOrInit (db : GormDB) (out : Val) (wh : List Val) : GormDB :=
  db.push (GCall.FirstOrInit out wh)

/-- Symbolic model of the chainable gorm method `FirstOrCreate`. -/
def FirstOrCreate (db : GormDB) (out : Val) (wh : List Val) : GormDB :=
  db.push (GCall.FirstOrCreate out wh)

/-- Symbolic model of the chainable gorm method `Update`, whose signature
takes a column name and one single value. -/
def Update (db : GormDB) (column : String) (value : Val) : GormDB :=
  db.push (GCall.Update column value)

/-- Symbolic model of the chainable gorm method `Updates`. -/
def Updates (db : GormDB) (values : Val) : GormDB :=
  db.push (GCall.Updates values)

/-- Symbolic model of the chainable gorm method `UpdateColumn`, whose
signature takes a column name and one single value. -/
def UpdateColumn (db : GormDB) (column : String) (value : Val) : GormDB :=
  db.push (GCall.UpdateColumn column value)

/-- Symbolic model of the chainable gorm method `UpdateColumns`. -/
def UpdateColumns (db : GormDB) (values : Val) : GormDB :=
  db.push (GCall.UpdateColumns values)

/-- Symbolic model of the chainable gorm method `Save`. -/
def Save (db : GormDB) (value : Val) : GormDB :=
  db.push (GCall.Save value)

/-- Symbolic model of the chainable gorm method `Create`. -/
def Create (db : GormDB) (value : Val) : GormDB :=
  db.push (GCall.Create value)

/-- Symbolic model of the chainable gorm method `Delete`. -/
def Delete (db : GormDB) (value : Val) (wh : List Val) : GormDB :=
  db.push (GCall.Delete value wh)

/-- Symbolic model of the chainable gorm method `Raw`. -/
def Raw (db : GormDB) (s : String) (values : List Val) : GormDB :=
  db.push (GCall.Raw s values)

/-- Symbolic model of the chainable gorm method `Exec`. -/
def Exec (db : GormDB) (s : String) (values : List Val) : GormDB :=
  db.push (GCall.Exec s values)

/-- Symbolic model of the chainable gorm method `Model`. -/
def Model (db : GormDB) (value : Val) : GormDB :=
  db.push (GCall.Model value)

/-- Symbolic model of the chainable gorm method `Table`. -/
def Table (db : GormDB) (name : String) : GormDB :=
  db.push (GCall.Table name)

/-- Symbolic model of the chainable gorm method `Debug`. -/
def Debug (db : GormDB) : GormDB :=
  db.push GCall.Debug

/-- Symbolic model of the chainable gorm method `Begin`. -/
def Begin (db : GormDB) : GormDB :=
  db.push GCall.Begin

/-- Symbolic model of the chainable gorm method `Commit`. -/
def Commit (db : GormDB) : GormDB :=
  db.push GCall.Commit

/-- Symbolic model of the chainable gorm method `Rollback`. -/
def Rollback (db : GormDB) : GormDB :=
  db.push GCall.Rollback

/-- Symbolic model of the chainable gorm method `Preload`. -/
def Preload (db : GormDB) (column : String) (conditions : List Val) : GormDB :=
  db.push (GCall.Preload column conditions)

/-- Symbolic model of the chainable gorm method `Set`. -/
def Set (db : GormDB) (name : String) (value : Val) : GormDB :=
  db.push (GCall.Set name value)

/-- Symbolic model of the chainable gorm method `InstanceSet`. -/
def InstanceSet (db : GormDB) (name : String) (value : Val) : GormDB :=
  db.push (GCall.InstanceSet name value)

/-- Symbolic model of gorm's `SetupJoinTable`: the call reaches the library
(first component) and the library answers with an optional error (second
component, from the oracle). -/
def SetupJoinTable (db : GormDB) (model : Val) (column : String) (handler : Val) :
    GormDB × Option String :=
  (db.push (GCall.SetupJoinTable model column handler),
    db.env.setupJoinTableF db.hist model column handler)

/-- Symbolic model of reading the `Error` field of a `gorm.DB`. -/
def Error (db : GormDB) : Option String :=
  db.env.errorF db.hist

/-- Symbolic model of reading the `RowsAffected` field of a `gorm.DB`. -/
def RowsAffected (db : GormDB) : Int :=
  db.env.rowsAffectedF db.hist

/-- Symbolic model of gorm's `Row()`. -/
def Row (db : GormDB) : Nat :=
  db.env.rowF db.hist

/-- Symbolic model of gorm's `Rows()`. -/
def Rows (db : GormDB) : Nat × Option String :=
  db.env.rowsF db.hist

/-- Symbolic model of gorm's `ScanRows(rows, result)`. -/
def ScanRows (db : GormDB) (rows : Nat) (result : Val) : Option String :=
  db.env.scanRowsF db.hist rows result

/-- Symbolic model of gorm's `Get(name)`. -/
def Get (db : GormDB) (name : String) : Val × Bool :=
  db.env.getF db.hist name

/-- Symbolic model of gorm's `AddError(err)`. -/
def AddError (db : GormDB) (e : String) : Option String :=
  db.env.addErrorF db.hist e

/-- Symbolic model of gorm's `AutoMigrate(values...)`. -/
def AutoMigrate (db : GormDB) (values : List Val) : Option String :=
  db.env.autoMigrateF db.hist values

/-- Symbolic model of gorm's `Association(column)`. -/
def Association (db : GormDB) (column : String) : Nat :=
  db.env.associationF db.hist column

end Gorm

/-- The locale service: `locale.Get key` returns the localized message for
a key (`abstraction.Locale` in the source). -/
def Locale : Type := String → String

/-- The configuration struct parsed from the registry (`dbConfig` in
`wrapper.go`). -/
structure dbConfig where
  Debug : Bool
  Host : String
  Port : String
  Username : String
  Password : String
  Database : String
  Ssl : String
  MaxIdleConnections : Int
  MaxOpenConnections : Int
  MaxLifetimeSeconds : Int
  SlowSqlThreshold : Int

/-- The wrapper's handle struct (`sql` in `wrapper.go`): the parsed
configuration, the locale service, and the `db *gorm.DB` pointer field,
which is `none` (Go `nil`) until `InitSql` assigns it. -/
structure sql where
  config : dbConfig
  locale : Locale
  db : Option GormDB

/-- Result of a wrapper method whose receiver holds a `db` pointer: calling
a gorm method through a nil `db` pointer dereferences nil (`nilDeref`);
otherwise the method's value is produced. -/
inductive OrNil (α : Type) where
  | nilDeref : OrNil α
  | ok : α → OrNil α
deriving DecidableEq

/-- Termination behaviour of a wrapper operation that may call the
fatal-log helper `helper.CustomPanic(msg, err)`: either a normal value, or
a fatal stop recording the localized message and the error passed on. -/
inductive Outcome (α : Type) where
  | ok : α → Outcome α
  | fatal : (msg : String) → (err : String) → Outcome α
deriving DecidableEq

/-- Function `NewSql`: parses the configuration from the registry (the parse result
is the oracle argument `parseRes`); on error it calls the fatal-log helper
with an empty message, otherwise it returns a handle whose `db` field is
still nil. -/
def NewSql (parseRes : Except String dbConfig) (locale : Locale) : Outcome sql :=
  match parseRes with
  | .error e => .fatal "" e
  | .ok cfg => .ok { config := cfg, locale := locale, db := none }

/-- The postgres DSN string that `InitSql` formats from the
configuration. -/
def dsnOf (c : dbConfig) : String :=
  "host=" ++ c.Host ++ " user=" ++ c.Username ++ " password=" ++ c.Password ++
    " dbname=" ++ c.Database ++ " port=" ++ c.Port ++ " sslmode=" ++ c.Ssl

/-- The underlying `database/sql` connection handle on which `InitSql`
applies the pool settings.  Lifetime is in nanoseconds, as Go's
`time.Duration`. -/
structure SqlConn where
  maxIdleConns : Int
  maxOpenConns : Int
  connMaxLifetime : Int
deriving DecidableEq

/-- Model of `(*sql.DB).SetMaxIdleConns`. -/
def SqlConn.SetMaxIdleConns (c : SqlConn) (n : Int) : SqlConn :=
  { c with maxIdleConns := n }

/-- Model of `(*sql.DB).SetMaxOpenConns`. -/
def SqlConn.SetMaxOpenConns (c : SqlConn) (n : Int) : SqlConn :=
  { c with maxOpenConns := n }

/-- Model of `(*sql.DB).SetConnMaxLifetime` (duration in nanoseconds). -/
def SqlConn.SetConnMaxLifetime (c : SqlConn) (d : Int) : SqlConn :=
  { c with connMaxLifetime := d }

/-- Method `InitSql`: opens the gorm connection on the DSN (result supplied by the
oracle `gormOpen`), retrieves the `sql.DB` connection (oracle `dbRes`),
applies each pool setting exactly when its configuration field is nonzero,
switches the handle to debug mode when configured, and stores the gorm
handle in the `db` field.  Each failing step calls the fatal-log helper
with the corresponding locale key. -/
def InitSql (g : sql) (gormOpen : String → Except String GormDB)
    (dbRes : Except String SqlConn) : Outcome (sql × SqlConn) :=
  let dsn := dsnOf g.config
  match gormOpen dsn with
  | .error e => .fatal (g.locale "sql_open_conn_err") e
  | .ok database =>
    match dbRes with
    | .error e => .fatal (g.locale "sql_retrieve_conn_err") e
    | .ok sqlDatabase =>
      let sqlDatabase :=
        if g.config.MaxIdleConnections ≠ 0 then
          sqlDatabase.SetMaxIdleConns g.config.MaxIdleConnections
        else sqlDatabase
      let sqlDatabase :=
        if g.config.MaxOpenConnections ≠ 0 then
          sqlDatabase.SetMaxOpenConns g.config.MaxOpenConnections
        else sqlDatabase
      let sqlDatabase :=
        if g.config.MaxLifetimeSeconds ≠ 0 then
          sqlDatabase.SetConnMaxLifetime (1000000000 * g.config.MaxLifetimeSeconds)
        else sqlDatabase
      let database := if g.config.Debug then Gorm.Debug database else database
      .ok ({ g with db := some database }, sqlDatabase)

/-- Method `Close`: retrieves the `sql.DB` connection from `g.db` and closes it,
calling the fatal-log helper with the `sql_close_conn_err` key when either
step errors. -/
def sql.Close (g : sql) : OrNil (Outcome Unit) :=
  match g.db with
  | none => .nilDeref
  | some db =>
    match db.env.dbConnF db.hist with
    | .error e => .ok (.fatal (g.locale "sql_close_conn_err") e)
    | .ok _ =>
      match db.env.closeF db.hist with
      | some e => .ok (.fatal (g.locale "sql_close_conn_err") e)
      | none => .ok (.ok ())

/-- Wrapper method `Where`: forwards to `g.db.Where(query, args...)`. -/
def sql.Where (g : sql) (query : Val) (args : List Val) : OrNil GormDB :=
  match g.db with
  | none => .nilDeref
  | some db => .ok (Gorm.Where db query args)

/-- Wrapper method `Or`: forwards to `g.db.Or(query, args...)`. -/
def sql.Or (g : sql) (query : Val) (args : List Val) : OrNil GormDB :=
  match g.db with
  | none => .nilDeref
  | some db => .ok (Gorm.Or db query args)

/-- Wrapper method `Not`: forwards to `g.db.Not(query, args...)`. -/
def sql.Not (g : sql) (query : Val) (args : List Val) : OrNil GormDB :=
  match g.db with
  | none => .nilDeref
  | some db => .ok (Gorm.Not db query args)

/-- Wrapper method `Limit`: forwards to `g.db.Limit(value)`. -/
def sql.Limit (g : sql) (value : Int) : OrNil GormDB :=
  match g.db with
  | none => .nilDeref
  | some db => .ok (Gorm.Limit db value)

/-- Wrapper method `Offset`: forwards to `g.db.Offset(value)`. -/
def sql.Offset (g : sql) (value : Int) : OrNil GormDB :=
  match g.db with
  | none => .nilDeref
  | some db => .ok (Gorm.Offset db value)

/-- Wrapper method `Order`: forwards to `g.db.Order(value)`. -/
def sql.Order (g : sql) (value : String) : OrNil GormDB :=
  match g.db with
  | none => .nilDeref
  | some db => .ok (Gorm.Order db value)

/-- Wrapper method `Select`: forwards to `g.db.Select(query, args...)`. -/
def sql.Select (g : sql) (query : Val) (args : List Val) : OrNil GormDB :=
  match g.db with
  | none => .nilDeref
  | some db => .ok (Gorm.Select db query args)

/-- Wrapper method `Omit`: forwards to `g.db.Omit(columns...)`. -/
def sql.Omit (g : sql) (columns : List String) : OrNil GormDB :=
  match g.db with
  | none => .nilDeref
  | some db => .ok (Gorm.Omit db columns)

/-- Wrapper method `Group`: forwards to `g.db.Group(query)`. -/
def sql.Group (g : sql) (query : String) : OrNil GormDB :=
  match g.db with
  | none => .nilDeref
  | some db => .ok (Gorm.Group db query)

/-- Wrapper method `Having`: forwards to `g.db.Having(query, values...)`. -/
def sql.Having (g : sql) (query : String) (values : List Val) : OrNil GormDB :=
  match g.db with
  | none => .nilDeref
  | some db => .ok (Gorm.Having db query values)

/-- Wrapper method `Joins`: forwards to `g.db.Joins(query, args...)`. -/
def sql.Joins (g : sql) (query : String) (args : List Val) : OrNil GormDB :=
  match g.db with
  | none => .nilDeref
  | some db => .ok (Gorm.Joins db query args)

/-- The `scopes` slice that the wrapper's `Scopes` builds: the source
loops `for _, f := range funcs` and appends, for each received function,
the closure `func(db) (return f(db))`.  The module declares go 1.19, so
the loop variable `f` is one variable shared by every iteration, and the
closures run only after `g.db.Scopes` has returned, when `f` holds the
last received function — so each appended closure applies the last
element of `funcs` (for an empty `funcs` no closure is appended and the
default is never reached). -/
def scopesOf (funcs : List (GormDB → GormDB)) : List (GormDB → GormDB) :=
  funcs.map fun _ => fun db => funcs.getLastD id db

/-- Wrapper method `Scopes`: builds the adapter closures over the shared
loop variable and forwards them — not the received functions — to
`g.db.Scopes(scopes...)`. -/
def sql.Scopes (g : sql) (funcs : List (GormDB → GormDB)) : OrNil GormDB :=
  match g.db with
  | none => .nilDeref
  | some db =>
    let scopes := scopesOf funcs
    .ok (Gorm.Scopes db scopes)

/-- Wrapper method `Unscoped`: forwards to `g.db.Unscoped()`. -/
def sql.Unscoped (g : sql) : OrNil GormDB :=
  match g.db with
  | none => .nilDeref
  | some db => .ok (Gorm.Unscoped db)

/-- Wrapper method `Attrs`: forwards to `g.db.Attrs(attrs...)`. -/
def sql.Attrs (g : sql) (attrs : List Val) : OrNil GormDB :=
  match g.db with
  | none => .nilDeref
  | some db => .ok (Gorm.Attrs db attrs)

/-- Wrapper method `Assign`: forwards to `g.db.Assign(attrs...)`. -/
def sql.Assign (g : sql) (attrs : List Val) : OrNil GormDB :=
  match g.db with
  | none => .nilDeref
  | some db => .ok (Gorm.Assign db attrs)

/-- Wrapper method `First`: forwards to `g.db.First(out, where...)`. -/
def sql.First (g : sql) (out : Val) (wh : List Val) : OrNil GormDB :=
  match g.db with
  | none => .nilDeref
  | some db => .ok (Gorm.First db out wh)

/-- Wrapper method `Last`: forwards to `g.db.Last(out, where...)`. -/
def sql.Last (g : sql) (out : Val) (wh : List Val) : OrNil GormDB :=
  match g.db with
  | none => .nilDeref
  | some db => .ok (Gorm.Last db out wh)

/-- Wrapper method `Find`: forwards to `g.db.Find(out, where...)`. -/
def sql.Find (g : sql) (out : Val) (wh : List Val) : OrNil GormDB :=
  match g.db with
  | none => .nilDeref
  | some db => .ok (Gorm.Find db out wh)

/-- Wrapper method `Scan`: forwards to `g.db.Scan(dest)`. -/
def sql.Scan (g : sql) (dest : Val) : OrNil GormDB :=
  match g.db with
  | none => .nilDeref
  | some db => .ok (Gorm.Scan db dest)

/-- Wrapper method `Row`: forwards to `g.db.Row()`. -/
def sql.Row (g : sql) : OrNil Nat :=
  match g.db with
  | none => .nilDeref
  | some db => .ok (Gorm.Row db)

/-- Wrapper method `Rows`: forwards to `g.db.Rows()` and returns the rows
handle and the error as the library produced them. -/
def sql.Rows (g : sql) : OrNil (Nat × Option String) :=
  match g.db with
  | none => .nilDeref
  | some db => .ok (Gorm.Rows db)

/-- Wrapper method `ScanRows`: forwards to `g.db.ScanRows(rows, result)`. -/
def sql.ScanRows (g : sql) (rows : Nat) (result : Val) : OrNil (Option String) :=
  match g.db with
  | none => .nilDeref
  | some db => .ok (Gorm.ScanRows db rows result)

/-- Wrapper method `Pluck`: forwards to `g.db.Pluck(column, value)`. -/
def sql.Pluck (g : sql) (column : String) (value : Val) : OrNil GormDB :=
  match g.db with
  | none => .nilDeref
  | some db => .ok (Gorm.Pluck db column value)

/-- Wrapper method `Count`: forwards to `g.db.Count(value)` (the `int64`
out-parameter is not modelled). -/
def sql.Count (g : sql) : OrNil GormDB :=
  match g.db with
  | none => .nilDeref
  | some db => .ok (Gorm.Count db)

/-- Wrapper method `FirstOrInit`: forwards to `g.db.FirstOrInit(out, where...)`. -/
def sql.FirstOrInit (g : sql) (out : Val) (wh : List Val) : OrNil GormDB :=
  match g.db with
  | none => .nilDeref
  | some db => .ok (Gorm.FirstOrInit db out wh)

/-- Wrapper method `FirstOrCreate`: forwards to `g.db.FirstOrCreate(out, where...)`. -/
def sql.FirstOrCreate (g : sql) (out : Val) (wh : List Val) : OrNil GormDB :=
  match g.db with
  | none => .nilDeref
  | some db => .ok (Gorm.FirstOrCreate db out wh)

/-- Wrapper method `Update`: the source passes the whole variadic slice
`attrs` as the single `value` argument of `g.db.Update(column, attrs)`,
so the slice is forwarded as one `Val.vlist` value. -/
def sql.Update (g : sql) (column : String) (attrs : List Val) : OrNil GormDB :=
  match g.db with
  | none => .nilDeref
  | some db => .ok (Gorm.Update db column (Val.vlist attrs))

/-- Wrapper method `Updates`: forwards to `g.db.Updates(values)`. -/
def sql.Updates (g : sql) (values : Val) : OrNil GormDB :=
  match g.db with
  | none => .nilDeref
  | some db => .ok (Gorm.Updates db values)

/-- Wrapper method `UpdateColumn`: like `Update`, the source passes the
whole variadic slice `attrs` as the single `value` argument of
`g.db.UpdateColumn(column, attrs)`. -/
def sql.UpdateColumn (g : sql) (column : String) (attrs : List Val) : OrNil GormDB :=
  match g.db with
  | none => .nilDeref
  | some db => .ok (Gorm.UpdateColumn db column (Val.vlist attrs))

/-- Wrapper method `UpdateColumns`: forwards to `g.db.UpdateColumns(values)`. -/
def sql.UpdateColumns (g : sql) (values : Val) : OrNil GormDB :=
  match g.db with
  | none => .nilDeref
  | some db => .ok (Gorm.UpdateColumns db values)

/-- Wrapper method `Save`: forwards to `g.db.Save(value)`. -/
def sql.Save (g : sql) (value : Val) : OrNil GormDB :=
  match g.db with
  | none => .nilDeref
  | some db => .ok (Gorm.Save db value)

/-- Wrapper method `Create`: forwards to `g.db.Create(value)`. -/
def sql.Create (g : sql) (value : Val) : OrNil GormDB :=
  match g.db with
  | none => .nilDeref
  | some db => .ok (Gorm.Create db value)

/-- Wrapper method `Delete`: forwards to `g.db.Delete(value, where...)`. -/
def sql.Delete (g : sql) (value : Val) (wh : List Val) : OrNil GormDB :=
  match g.db with
  | none => .nilDeref
  | some db => .ok (Gorm.Delete db value wh)

/-- Wrapper method `Raw`: forwards to `g.db.Raw(sql, values...)`. -/
def sql.Raw (g : sql) (s : String) (values : List Val) : OrNil GormDB :=
  match g.db with
  | none => .nilDeref
  | some db => .ok (Gorm.Raw db s values)

/-- Wrapper method `Exec`: forwards to `g.db.Exec(sql, values...)`. -/
def sql.Exec (g : sql) (s : String) (values : List Val) : OrNil GormDB :=
  match g.db with
  | none => .nilDeref
  | some db => .ok (Gorm.Exec db s values)

/-- Wrapper method `Model`: forwards to `g.db.Model(value)`. -/
def sql.Model (g : sql) (value : Val) : OrNil GormDB :=
  match g.db with
  | none => .nilDeref
  | some db => .ok (Gorm.Model db value)

/-- Wrapper method `Table`: forwards to `g.db.Table(name)`. -/
def sql.Table (g : sql) (name : String) : OrNil GormDB :=
  match g.db with
  | none => .nilDeref
  | some db => .ok (Gorm.Table db name)

/-- Wrapper method `Debug`: forwards to `g.db.Debug()`. -/
def sql.Debug (g : sql) : OrNil GormDB :=
  match g.db with
  | none => .nilDeref
  | some db => .ok (Gorm.Debug db)

/-- Wrapper method `Begin`: forwards to `g.db.Begin()`. -/
def sql.Begin (g : sql) : OrNil GormDB :=
  match g.db with
  | none => .nilDeref
  | some db => .ok (Gorm.Begin db)

/-- Wrapper method `Commit`: forwards to `g.db.Commit()`. -/
def sql.Commit (g : sql) : OrNil GormDB :=
  match g.db with
  | none => .nilDeref
  | some db => .ok (Gorm.Commit db)

/-- Wrapper method `Rollback`: forwards to `g.db.Rollback()`. -/
def sql.Rollback (g : sql) : OrNil GormDB :=
  match g.db with
  | none => .nilDeref
  | some db => .ok (Gorm.Rollback db)

/-- Wrapper method `AutoMigrate`: forwards to `g.db.AutoMigrate(values...)`
and returns its error. -/
def sql.AutoMigrate (g : sql) (values : List Val) : OrNil (Option String) :=
  match g.db with
  | none => .nilDeref
  | some db => .ok (Gorm.AutoMigrate db values)

/-- Wrapper method `Association`: forwards to `g.db.Association(column)`. -/
def sql.Association (g : sql) (column : String) : OrNil Nat :=
  match g.db with
  | none => .nilDeref
  | some db => .ok (Gorm.Association db column)

/-- Wrapper method `Preload`: forwards to `g.db.Preload(column, conditions...)`. -/
def sql.Preload (g : sql) (column : String) (conditions : List Val) : OrNil GormDB :=
  match g.db with
  | none => .nilDeref
  | some db => .ok (Gorm.Preload db column conditions)

/-- Wrapper method `Set`: forwards to `g.db.Set(name, value)`. -/
def sql.Set (g : sql) (name : String) (value : Val) : OrNil GormDB :=
  match g.db with
  | none => .nilDeref
  | some db => .ok (Gorm.Set db name value)

/-- Wrapper method `InstanceSet`: forwards to `g.db.InstanceSet(name, value)`. -/
def sql.InstanceSet (g : sql) (name : String) (value : Val) : OrNil GormDB :=
  match g.db with
  | none => .nilDeref
  | some db => .ok (Gorm.InstanceSet db name value)

/-- Wrapper method `Get`: forwards to `g.db.Get(name)`. -/
def sql.Get (g : sql) (name : String) : OrNil (Val × Bool) :=
  match g.db with
  | none => .nilDeref
  | some db => .ok (Gorm.Get db name)

/-- Wrapper method `SetJoinTable`: calls `g.db.SetupJoinTable(model,
column, handler)`, returns the error when it is non-nil and nil
otherwise. -/
def sql.SetJoinTable (g : sql) (model : Val) (column : String) (handler : Val) :
    OrNil (Option String) :=
  match g.db with
  | none => .nilDeref
  | some db =>
    let err := (Gorm.SetupJoinTable db model column handler).2
    match err with
    | some e => .ok (some e)
    | none => .ok none

/-- Wrapper method `AddError`: forwards to `g.db.AddError(err)`. -/
def sql.AddError (g : sql) (e : String) : OrNil (Option String) :=
  match g.db with
  | none => .nilDeref
  | some db => .ok (Gorm.AddError db e)

/-- Wrapper method `RowsAffected`: returns the `RowsAffected` field of
`g.db`. -/
def sql.RowsAffected (g : sql) : OrNil Int :=
  match g.db with
  | none => .nilDeref
  | some db => .ok (Gorm.RowsAffected db)

/-- Wrapper method `Error`: returns the `Error` field of `g.db`. -/
def sql.Error (g : sql) : OrNil (Option String) :=
  match g.db with
  | none => .nilDeref
  | some db => .ok (Gorm.Error db)

/-- Wrapper method `Seed`: the whole body of `Seed` in `wrapper.go` is
commented out, so the method issues no database calls at all; the embedding
returns the (empty) list of gorm calls the method issues. -/
def sql.Seed (_ : sql) : List GCall := []

instance {ε α : Type} [DecidableEq ε] [DecidableEq α] : DecidableEq (Except ε α)
  | .error a, .error b =>
    if h : a = b then .isTrue (h ▸ rfl)
    else .isFalse (fun hh => by cases hh; exact h rfl)
  | .error _, .ok _ => .isFalse (fun h => Except.noConfusion h)
  | .ok _, .error _ => .isFalse (fun h => Except.noConfusion h)
  | .ok a, .ok b =>
    if h : a = b then .isTrue (h ▸ rfl)
    else .isFalse (fun hh => by cases hh; exact h rfl)

/-- One entry of the migration directory, as `dir.Readdir(-1)` reports it:
its file name, whether its file mode is regular (`Mode().IsRegular()`),
and the result of `ioutil.ReadFile` on it (`.ok` with the raw textual
contents, or `.error` with the read error). -/
structure FileEntry where
  name : String
  isRegular : Bool
  content : Except String String
deriving DecidableEq

/-- Result of opening and listing the migration directory: `os.Open` may
fail, `dir.Readdir(-1)` may fail, or the listing is returned. -/
inductive DirRes where
  | openErr : String → DirRes
  | readdirErr : String → DirRes
  | entries : List FileEntry → DirRes
deriving DecidableEq

/-- How a `Migrate` run ends: normally, by printing the directory-read
error message to standard output and returning, or by the fatal-log
helper. -/
inductive MigrateRes where
  | ok : MigrateRes
  | dirReadPrinted : (msg : String) → (err : String) → MigrateRes
  | fatal : (msg : String) → (err : String) → MigrateRes
deriving DecidableEq

/-- Helper `parseSqlFile`: reads the file `path/name` and returns its contents as
a string; a read error goes to the fatal-log helper with the
`sql_failed_to_parse_sql` key. -/
def parseSqlFile (g : sql) (path : String) (fileInfo : FileEntry) : Outcome String :=
  let sqlFile := path ++ "/" ++ fileInfo.name
  let _ := sqlFile
  match fileInfo.content with
  | .error e => .fatal (g.locale "sql_failed_to_parse_sql") e
  | .ok s => .ok s

/-- The `sort.Slice` call of `Migrate`: the directory entries sorted
alphabetically by file name (Go compares the names' byte sequences; the
model compares their character lists lexicographically). -/
def sortByName (l : List FileEntry) : List FileEntry :=
  List.insertionSort (fun a b => a.name.data ≤ b.name.data) l

instance : IsTotal FileEntry (fun a b => a.name.data ≤ b.name.data) :=
  ⟨fun a b => le_total a.name.data b.name.data⟩

instance : IsTrans FileEntry (fun a b => a.name.data ≤ b.name.data) :=
  ⟨fun _ _ _ h1 h2 => le_trans h1 h2⟩

/-- The `for` loop of `Migrate` over the sorted directory entries: each
regular entry is parsed and its contents handed to `g.db.Exec`; a non-nil
`Error` on the resulting handle stops the run through the fatal-log
helper.  The result pairs the list of statements passed to `Exec`, in
order, with how the run ended. -/
def migrateLoop (g : sql) (path : String) : List FileEntry → OrNil (List String × MigrateRes)
  | [] => .ok ([], .ok)
  | fileInfo :: rest =>
    if fileInfo.isRegular then
      match parseSqlFile g path fileInfo with
      | .fatal k e => .ok ([], .fatal k e)
      | .ok stmt =>
        match g.db with
        | none => .nilDeref
        | some db =>
          match Gorm.Error (Gorm.Exec db stmt []) with
          | some e => .ok ([stmt], .fatal (g.locale "sql_migrate_err") e)
          | none =>
            match migrateLoop g path rest with
            | .nilDeref => .nilDeref
            | .ok r => .ok (stmt :: r.1, r.2)
    else migrateLoop g path rest

/-- Method `Migrate`: opens the directory at `path` (fatal-log on error), reads
its entries (on error, prints the localized message and the error and
returns), sorts the entries alphabetically by name, and executes the
contents of each regular file in that order through `g.db.Exec`,
stopping at the first failing statement through the fatal-log helper. -/
def Migrate (g : sql) (path : String) (dir : DirRes) : OrNil (List String × MigrateRes) :=
  match dir with
  | .openErr e => .ok ([], .fatal (g.locale "sql_scan_sql_dir_err") e)
  | .readdirErr e => .ok ([], .dirReadPrinted (g.locale "sql_dir_read_err") e)
  | .entries fileInfos => migrateLoop g path (sortByName fileInfos)

/-! Concrete fixtures: a benign library environment, a fresh handle, a
transparent locale and a small configuration, used to evaluate the
wrapper's operations on explicit inputs. -/

/-- A benign library environment: every operation succeeds and every read
returns a default. -/
def env0 : GormEnv where
  errorF := fun _ => none
  rowsAffectedF := fun _ => 0
  rowF := fun _ => 0
  rowsF := fun _ => (0, none)
  scanRowsF := fun _ _ _ => none
  getF := fun _ _ => (Val.vint 0, false)
  setupJoinTableF := fun _ _ _ _ => none
  addErrorF := fun _ _ => none
  autoMigrateF := fun _ _ => none
  associationF := fun _ _ => 0
  dbConnF := fun _ => .ok ()
  closeF := fun _ => none

/-- A fresh gorm handle over the benign environment. -/
def db0 : GormDB := { hist := [], env := env0 }

/-- A transparent locale: every key is its own message. -/
def loc0 : Locale := fun s => s

/-- A small concrete configuration. -/
def cfg0 : dbConfig where
  Debug := false
  Host := "localhost"
  Port := "5432"
  Username := "user"
  Password := "pass"
  Database := "db"
  Ssl := "disable"
  MaxIdleConnections := 0
  MaxOpenConnections := 0
  MaxLifetimeSeconds := 0
  SlowSqlThreshold := 0

/-- A wrapper handle after initialization: `db` holds `db0`. -/
def g0 : sql := { config := cfg0, locale := loc0, db := some db0 }

/-- A wrapper handle before initialization: `db` is still nil. -/
def gnil : sql := { config := cfg0, locale := loc0, db := none }

/-- A library environment in which executing the statement `"BAD"` fails
with error `"boom"` and everything else succeeds. -/
def envBad : GormEnv :=
  { env0 with
    errorF := fun h =>
      match h.getLast? with
      | some (GCall.Exec s _) => if s = "BAD" then some "boom" else none
      | _ => none }

/-- A fresh gorm handle over the failing environment. -/
def dbBad : GormDB := { hist := [], env := envBad }

/-- A wrapper handle over the failing environment. -/
def gBad : sql := { config := cfg0, locale := loc0, db := some dbBad }

/-- A library environment in which retrieving the `sql.DB` connection
fails. -/
def envConnErr : GormEnv := { env0 with dbConnF := fun _ => .error "no-conn" }

/-- A gorm handle over the connection-retrieval-failure environment. -/
def dbConnErr : GormDB := { hist := [], env := envConnErr }

/-- A library environment in which closing the connection fails. -/
def envCloseErr : GormEnv := { env0 with closeF := fun _ => some "close-fail" }

/-- A gorm handle over the close-failure environment. -/
def dbCloseErr : GormDB := { hist := [], env := envCloseErr }

/-- The wrapper's `SetJoinTable` returns exactly the error value that the
library's `SetupJoinTable` produced: the explicit nil check in the source
(`if err != nil return err; return nil`) never changes it. -/
theorem setJoinTable_returns_library_error (cfg : dbConfig) (loc : Locale) (db : GormDB)
    (model : Val) (column : String) (handler : Val) :
    sql.SetJoinTable ⟨cfg, loc, some db⟩ model column handler =
      .ok (Gorm.SetupJoinTable db model column handler).2 := by
  cases hv : (Gorm.SetupJoinTable db model column handler).2 <;>
    simp [sql.SetJoinTable, Gorm.SetupJoinTable] at hv ⊢ <;> simp [hv]

/-- C3: counterexample.  The claim says a `Seed` call counts the existing
rows of the seed entity and, exactly when that count is zero, inserts the
seed records.  On the concrete initialized handle `g0` the list of gorm
calls that `Seed` issues is empty: it contains no `Count` call (and no
`Create`), because the whole body of `Seed` is commented out. -/
theorem c3_seed_counterexample :
    sql.Seed g0 = [] ∧ (sql.Seed g0).contains GCall.Count = false :=
  ⟨rfl, rfl⟩

/-- C3 (amended): `Seed` is a no-op.  Its count-then-insert guard exists
only as commented-out code, so for every handle the method issues no
database calls: no count is performed and nothing is ever inserted. -/
theorem c3_seed_noop (g : sql) : sql.Seed g = [] := rfl

/-- C7: `Begin`, `Commit` and `Rollback` each forward directly to the gorm
method of the same name on the stored handle and return its result
unchanged; on the library side each issues exactly the single
corresponding call, and the wrapper's receiver state is never touched (the
methods are pure functions of the stored handle). -/
theorem c7_transactions_forward (cfg : dbConfig) (loc : Locale) (db : GormDB) :
    sql.Begin ⟨cfg, loc, some db⟩ = .ok (Gorm.Begin db) ∧
    Gorm.Begin db = db.push GCall.Begin ∧
    sql.Commit ⟨cfg, loc, some db⟩ = .ok (Gorm.Commit db) ∧
    Gorm.Commit db = db.push GCall.Commit ∧
    sql.Rollback ⟨cfg, loc, some db⟩ = .ok (Gorm.Rollback db) ∧
    Gorm.Rollback db = db.push GCall.Rollback :=
  ⟨rfl, rfl, rfl, rfl, rfl, rfl⟩

/-- C9: on the success path of `InitSql`, each pool setting of the
retrieved connection is set from the configuration exactly when the
corresponding field is nonzero, and keeps the connection's prior (driver
default) value when the field is zero; the lifetime is the configured
seconds converted to nanoseconds. -/
theorem c9_pool_settings (cfg : dbConfig) (loc : Locale) (dbv : Option GormDB)
    (db : GormDB) (conn0 : SqlConn) :
    ∃ g' conn',
      InitSql ⟨cfg, loc, dbv⟩ (fun _ => .ok db) (.ok conn0) = .ok (g', conn') ∧
      conn'.maxIdleConns =
        (if cfg.MaxIdleConnections ≠ 0 then cfg.MaxIdleConnections
          else conn0.maxIdleConns) ∧
      conn'.maxOpenConns =
        (if cfg.MaxOpenConnections ≠ 0 then cfg.MaxOpenConnections
          else conn0.maxOpenConns) ∧
      conn'.connMaxLifetime =
        (if cfg.MaxLifetimeSeconds ≠ 0 then 1000000000 * cfg.MaxLifetimeSeconds
          else conn0.connMaxLifetime) := by
  refine ⟨_, _, rfl, ?_, ?_, ?_⟩ <;>
    simp only [SqlConn.SetMaxIdleConns, SqlConn.SetMaxOpenConns,
      SqlConn.SetConnMaxLifetime] <;>
    split_ifs <;> rfl

/-- C10: `NewSql` returns a handle whose `db` field is nil; `InitSql` is
what assigns it (its success result carries `db = some _`); and every
query method called on a handle whose `db` field is still nil dereferences
the nil gorm handle. -/
theorem c10_nil_before_init (cfg : dbConfig) (loc : Locale) (dbv : Option GormDB)
    (db : GormDB) (conn0 : SqlConn) (q v : Val) (args wh : List Val) (n : Int)
    (s col : String) :
    NewSql (.ok cfg) loc = .ok ⟨cfg, loc, none⟩ ∧
    (∃ d conn',
      InitSql ⟨cfg, loc, dbv⟩ (fun _ => .ok db) (.ok conn0) =
        .ok (⟨cfg, loc, some d⟩, conn')) ∧
    sql.Where ⟨cfg, loc, none⟩ q args = .nilDeref ∧
    sql.Or ⟨cfg, loc, none⟩ q args = .nilDeref ∧
    sql.Not ⟨cfg, loc, none⟩ q args = .nilDeref ∧
    sql.Limit ⟨cfg, loc, none⟩ n = .nilDeref ∧
    sql.Offset ⟨cfg, loc, none⟩ n = .nilDeref ∧
    sql.Order ⟨cfg, loc, none⟩ s = .nilDeref ∧
    sql.Select ⟨cfg, loc, none⟩ q args = .nilDeref ∧
    sql.First ⟨cfg, loc, none⟩ v wh = .nilDeref ∧
    sql.Last ⟨cfg, loc, none⟩ v wh = .nilDeref ∧
    sql.Find ⟨cfg, loc, none⟩ v wh = .nilDeref ∧
    sql.Create ⟨cfg, loc, none⟩ v = .nilDeref ∧
    sql.Save ⟨cfg, loc, none⟩ v = .nilDeref ∧
    sql.Update ⟨cfg, loc, none⟩ col args = .nilDeref ∧
    sql.Delete ⟨cfg, loc, none⟩ v wh = .nilDeref ∧
    sql.Raw ⟨cfg, loc, none⟩ s args = .nilDeref ∧
    sql.Exec ⟨cfg, loc, none⟩ s args = .nilDeref ∧
    sql.Begin ⟨cfg, loc, none⟩ = .nilDeref ∧
    sql.Commit ⟨cfg, loc, none⟩ = .nilDeref ∧
    sql.Rollback ⟨cfg, loc, none⟩ = .nilDeref ∧
    sql.Rows ⟨cfg, loc, none⟩ = .nilDeref ∧
    sql.Error ⟨cfg, loc, none⟩ = .nilDeref ∧
    sql.RowsAffected ⟨cfg, loc, none⟩ = .nilDeref ∧
    sql.Close ⟨cfg, loc, none⟩ = .nilDeref :=
  ⟨rfl, ⟨if cfg.Debug then Gorm.Debug db else db, _, rfl⟩, rfl, rfl, rfl, rfl, rfl,
    rfl, rfl, rfl, rfl, rfl, rfl, rfl, rfl, rfl, rfl, rfl, rfl, rfl, rfl, rfl, rfl,
    rfl, rfl⟩

/-- C1: counterexample.  The claim says every public wrapper operation —
`SetJoinTable` among those listed — invokes the underlying ORM method of
the same name.  At this concrete input the single call that the wrapper's
`SetJoinTable` places on the library side is named `SetupJoinTable`, which
is not the name `SetJoinTable`, so the same-name part of the claim is
false for `SetJoinTable` (the result is still returned unchanged). -/
theorem c1_setjointable_name_counterexample :
    sql.SetJoinTable g0 (Val.vstr "m") "col" (Val.vstr "handler") = .ok none ∧
    (Gorm.SetupJoinTable db0 (Val.vstr "m") "col" (Val.vstr "handler")).1.hist =
      [GCall.SetupJoinTable (Val.vstr "m") "col" (Val.vstr "handler")] ∧
    GCall.name (GCall.SetupJoinTable (Val.vstr "m") "col" (Val.vstr "handler")) =
      "SetupJoinTable" ∧
    ("SetupJoinTable" = "SetJoinTable") = False :=
  ⟨rfl, rfl, rfl, eq_false (by decide)⟩

/-- C1 (amended): every public wrapper operation invokes the corresponding
underlying ORM method and returns that method's result unchanged; for each
builder operation the library receives exactly the one call of the same
name as the wrapper method, with the single exception of `SetJoinTable`,
which invokes the ORM method named `SetupJoinTable` (and still returns its
result unchanged). -/
theorem c1_forwarding_amended (cfg : dbConfig) (loc : Locale) (db : GormDB)
    (q out v m hd : Val) (args wh vals : List Val) (n : Int) (s col nm : String)
    (cols : List String) (rh : Nat) (e : String) :
    (sql.Where ⟨cfg, loc, some db⟩ q args = .ok (db.push (GCall.Where q args)) ∧
      GCall.name (GCall.Where q args) = "Where") ∧
    (sql.Or ⟨cfg, loc, some db⟩ q args = .ok (db.push (GCall.Or q args)) ∧
      GCall.name (GCall.Or q args) = "Or") ∧
    (sql.Not ⟨cfg, loc, some db⟩ q args = .ok (db.push (GCall.Not q args)) ∧
      GCall.name (GCall.Not q args) = "Not") ∧
    (sql.Limit ⟨cfg, loc, some db⟩ n = .ok (db.push (GCall.Limit n)) ∧
      GCall.name (GCall.Limit n) = "Limit") ∧
    (sql.Offset ⟨cfg, loc, some db⟩ n = .ok (db.push (GCall.Offset n)) ∧
      GCall.name (GCall.Offset n) = "Offset") ∧
    (sql.Order ⟨cfg, loc, some db⟩ s = .ok (db.push (GCall.Order s)) ∧
      GCall.name (GCall.Order s) = "Order") ∧
    (sql.Select ⟨cfg, loc, some db⟩ q args = .ok (db.push (GCall.Select q args)) ∧
      GCall.name (GCall.Select q args) = "Select") ∧
    (sql.Omit ⟨cfg, loc, some db⟩ cols = .ok (db.push (GCall.Omit cols)) ∧
      GCall.name (GCall.Omit cols) = "Omit") ∧
    (sql.Group ⟨cfg, loc, some db⟩ s = .ok (db.push (GCall.Group s)) ∧
      GCall.name (GCall.Group s) = "Group") ∧
    (sql.Having ⟨cfg, loc, some db⟩ s vals = .ok (db.push (GCall.Having s vals)) ∧
      GCall.name (GCall.Having s vals) = "Having") ∧
    (sql.Joins ⟨cfg, loc, some db⟩ s args = .ok (db.push (GCall.Joins s args)) ∧
      GCall.name (GCall.Joins s args) = "Joins") ∧
    (sql.Unscoped ⟨cfg, loc, some db⟩ = .ok (db.push GCall.Unscoped) ∧
      GCall.name GCall.Unscoped = "Unscoped") ∧
    (sql.Attrs ⟨cfg, loc, some db⟩ args = .ok (db.push (GCall.Attrs args)) ∧
      GCall.name (GCall.Attrs args) = "Attrs") ∧
    (sql.Assign ⟨cfg, loc, some db⟩ args = .ok (db.push (GCall.Assign args)) ∧
      GCall.name (GCall.Assign args) = "Assign") ∧
    (sql.First ⟨cfg, loc, some db⟩ out wh = .ok (db.push (GCall.First out wh)) ∧
      GCall.name (GCall.First out wh) = "First") ∧
    (sql.Last ⟨cfg, loc, some db⟩ out wh = .ok (db.push (GCall.Last out wh)) ∧
      GCall.name (GCall.Last out wh) = "Last") ∧
    (sql.Find ⟨cfg, loc, some db⟩ out wh = .ok (db.push (GCall.Find out wh)) ∧
      GCall.name (GCall.Find out wh) = "Find") ∧
    (sql.Scan ⟨cfg, loc, some db⟩ v = .ok (db.push (GCall.Scan v)) ∧
      GCall.name (GCall.Scan v) = "Scan") ∧
    (sql.Pluck ⟨cfg, loc, some db⟩ col v = .ok (db.push (GCall.Pluck col v)) ∧
      GCall.name (GCall.Pluck col v) = "Pluck") ∧
    (sql.Count ⟨cfg, loc, some db⟩ = .ok (db.push GCall.Count) ∧
      GCall.name GCall.Count = "Count") ∧
    (sql.FirstOrInit ⟨cfg, loc, some db⟩ out wh =
        .ok (db.push (GCall.FirstOrInit out wh)) ∧
      GCall.name (GCall.FirstOrInit out wh) = "FirstOrInit") ∧
    (sql.FirstOrCreate ⟨cfg, loc, some db⟩ out wh =
        .ok (db.push (GCall.FirstOrCreate out wh)) ∧
      GCall.name (GCall.FirstOrCreate out wh) = "FirstOrCreate") ∧
    (sql.Update ⟨cfg, loc, some db⟩ col args =
        .ok (db.push (GCall.Update col (Val.vlist args))) ∧
      GCall.name (GCall.Update col (Val.vlist args)) = "Update") ∧
    (sql.Updates ⟨cfg, loc, some db⟩ v = .ok (db.push (GCall.Updates v)) ∧
      GCall.name (GCall.Updates v) = "Updates") ∧
    (sql.UpdateColumn ⟨cfg, loc, some db⟩ col args =
        .ok (db.push (GCall.UpdateColumn col (Val.vlist args))) ∧
      GCall.name (GCall.UpdateColumn col (Val.vlist args)) = "UpdateColumn") ∧
    (sql.UpdateColumns ⟨cfg, loc, some db⟩ v = .ok (db.push (GCall.UpdateColumns v)) ∧
      GCall.name (GCall.UpdateColumns v) = "UpdateColumns") ∧
    (sql.Save ⟨cfg, loc, some db⟩ v = .ok (db.push (GCall.Save v)) ∧
      GCall.name (GCall.Save v) = "Save") ∧
    (sql.Create ⟨cfg, loc, some db⟩ v = .ok (db.push (GCall.Create v)) ∧
      GCall.name (GCall.Create v) = "Create") ∧
    (sql.Delete ⟨cfg, loc, some db⟩ v wh = .ok (db.push (GCall.Delete v wh)) ∧
      GCall.name (GCall.Delete v wh) = "Delete") ∧
    (sql.Raw ⟨cfg, loc, some db⟩ s vals = .ok (db.push (GCall.Raw s vals)) ∧
      GCall.name (GCall.Raw s vals) = "Raw") ∧
    (sql.Exec ⟨cfg, loc, some db⟩ s vals = .ok (db.push (GCall.Exec s vals)) ∧
      GCall.name (GCall.Exec s vals) = "Exec") ∧
    (sql.Model ⟨cfg, loc, some db⟩ v = .ok (db.push (GCall.Model v)) ∧
      GCall.name (GCall.Model v) = "Model") ∧
    (sql.Table ⟨cfg, loc, some db⟩ nm = .ok (db.push (GCall.Table nm)) ∧
      GCall.name (GCall.Table nm) = "Table") ∧
    (sql.Debug ⟨cfg, loc, some db⟩ = .ok (db.push GCall.Debug) ∧
      GCall.name GCall.Debug = "Debug") ∧
    (sql.Begin ⟨cfg, loc, some db⟩ = .ok (db.push GCall.Begin) ∧
      GCall.name GCall.Begin = "Begin") ∧
    (sql.Commit ⟨cfg, loc, some db⟩ = .ok (db.push GCall.Commit) ∧
      GCall.name GCall.Commit = "Commit") ∧
    (sql.Rollback ⟨cfg, loc, some db⟩ = .ok (db.push GCall.Rollback) ∧
      GCall.name GCall.Rollback = "Rollback") ∧
    (sql.Preload ⟨cfg, loc, some db⟩ col args = .ok (db.push (GCall.Preload col args)) ∧
      GCall.name (GCall.Preload col args) = "Preload") ∧
    (sql.Set ⟨cfg, loc, some db⟩ nm v = .ok (db.push (GCall.Set nm v)) ∧
      GCall.name (GCall.Set nm v) = "Set") ∧
    (sql.InstanceSet ⟨cfg, loc, some db⟩ nm v = .ok (db.push (GCall.InstanceSet nm v)) ∧
      GCall.name (GCall.InstanceSet nm v) = "InstanceSet") ∧
    sql.Row ⟨cfg, loc, some db⟩ = .ok (Gorm.Row db) ∧
    sql.Rows ⟨cfg, loc, some db⟩ = .ok (Gorm.Rows db) ∧
    sql.ScanRows ⟨cfg, loc, some db⟩ rh v = .ok (Gorm.ScanRows db rh v) ∧
    sql.Get ⟨cfg, loc, some db⟩ nm = .ok (Gorm.Get db nm) ∧
    sql.AutoMigrate ⟨cfg, loc, some db⟩ vals = .ok (Gorm.AutoMigrate db vals) ∧
    sql.Association ⟨cfg, loc, some db⟩ col = .ok (Gorm.Association db col) ∧
    sql.AddError ⟨cfg, loc, some db⟩ e = .ok (Gorm.AddError db e) ∧
    sql.RowsAffected ⟨cfg, loc, some db⟩ = .ok (Gorm.RowsAffected db) ∧
    sql.Error ⟨cfg, loc, some db⟩ = .ok (Gorm.Error db) ∧
    (sql.SetJoinTable ⟨cfg, loc, some db⟩ m col hd =
        .ok (Gorm.SetupJoinTable db m col hd).2 ∧
      GCall.name (GCall.SetupJoinTable m col hd) = "SetupJoinTable") :=
  ⟨⟨rfl, rfl⟩, ⟨rfl, rfl⟩, ⟨rfl, rfl⟩, ⟨rfl, rfl⟩, ⟨rfl, rfl⟩, ⟨rfl, rfl⟩,
    ⟨rfl, rfl⟩, ⟨rfl, rfl⟩, ⟨rfl, rfl⟩, ⟨rfl, rfl⟩, ⟨rfl, rfl⟩, ⟨rfl, rfl⟩,
    ⟨rfl, rfl⟩, ⟨rfl, rfl⟩, ⟨rfl, rfl⟩, ⟨rfl, rfl⟩, ⟨rfl, rfl⟩, ⟨rfl, rfl⟩,
    ⟨rfl, rfl⟩, ⟨rfl, rfl⟩, ⟨rfl, rfl⟩, ⟨rfl, rfl⟩, ⟨rfl, rfl⟩, ⟨rfl, rfl⟩,
    ⟨rfl, rfl⟩, ⟨rfl, rfl⟩, ⟨rfl, rfl⟩, ⟨rfl, rfl⟩, ⟨rfl, rfl⟩, ⟨rfl, rfl⟩,
    ⟨rfl, rfl⟩, ⟨rfl, rfl⟩, ⟨rfl, rfl⟩, ⟨rfl, rfl⟩, ⟨rfl, rfl⟩, ⟨rfl, rfl⟩,
    ⟨rfl, rfl⟩, ⟨rfl, rfl⟩, ⟨rfl, rfl⟩, ⟨rfl, rfl⟩, rfl, rfl, rfl, rfl, rfl,
    rfl, rfl, rfl, rfl,
    ⟨setJoinTable_returns_library_error cfg loc db m col hd, rfl⟩⟩

/-- C2: counterexample.  The claim says variadic arguments are forwarded
element-wise, never repackaged.  The wrapper's `Update` receives the
variadic list `[30]` but hands gorm's `Update` the single value that is
the whole slice (`vlist [30]`); element-wise forwarding of the one
received element would have handed it the value `30` itself, a different
call. -/
theorem c2_update_packing_counterexample :
    sql.Update g0 "age" [Val.vint 30] =
      .ok (db0.push (GCall.Update "age" (Val.vlist [Val.vint 30]))) ∧
    (GCall.Update "age" (Val.vlist [Val.vint 30]) =
        GCall.Update "age" (Val.vint 30)) = False :=
  ⟨rfl, eq_false (by decide)⟩

/-- C2 (amended): every wrapper operation passes exactly the arguments it
received to the library method it calls, and variadic arguments are
forwarded element-wise — except `Update` and `UpdateColumn`, which pass
the received variadic `attrs` slice packed as one single value, and
`Scopes`, which passes newly built adapter closures instead of the
received functions: one closure per received function, each applying the
shared go 1.19 loop variable's final value, so every closure handed to
the library invokes the last received function (exhibited here on a
two-function list). -/
theorem c2_arguments_amended (cfg : dbConfig) (loc : Locale) (db : GormDB)
    (q out v : Val) (args wh vals : List Val) (n : Int) (s col : String)
    (cols : List String) (f1 f2 : GormDB → GormDB) (funcs : List (GormDB → GormDB)) :
    sql.Where ⟨cfg, loc, some db⟩ q args = .ok (db.push (GCall.Where q args)) ∧
    sql.Or ⟨cfg, loc, some db⟩ q args = .ok (db.push (GCall.Or q args)) ∧
    sql.Not ⟨cfg, loc, some db⟩ q args = .ok (db.push (GCall.Not q args)) ∧
    sql.Limit ⟨cfg, loc, some db⟩ n = .ok (db.push (GCall.Limit n)) ∧
    sql.Select ⟨cfg, loc, some db⟩ q args = .ok (db.push (GCall.Select q args)) ∧
    sql.Omit ⟨cfg, loc, some db⟩ cols = .ok (db.push (GCall.Omit cols)) ∧
    sql.Having ⟨cfg, loc, some db⟩ s vals = .ok (db.push (GCall.Having s vals)) ∧
    sql.Joins ⟨cfg, loc, some db⟩ s args = .ok (db.push (GCall.Joins s args)) ∧
    sql.Attrs ⟨cfg, loc, some db⟩ args = .ok (db.push (GCall.Attrs args)) ∧
    sql.Assign ⟨cfg, loc, some db⟩ args = .ok (db.push (GCall.Assign args)) ∧
    sql.First ⟨cfg, loc, some db⟩ out wh = .ok (db.push (GCall.First out wh)) ∧
    sql.Last ⟨cfg, loc, some db⟩ out wh = .ok (db.push (GCall.Last out wh)) ∧
    sql.Find ⟨cfg, loc, some db⟩ out wh = .ok (db.push (GCall.Find out wh)) ∧
    sql.Delete ⟨cfg, loc, some db⟩ v wh = .ok (db.push (GCall.Delete v wh)) ∧
    sql.Raw ⟨cfg, loc, some db⟩ s vals = .ok (db.push (GCall.Raw s vals)) ∧
    sql.Exec ⟨cfg, loc, some db⟩ s vals = .ok (db.push (GCall.Exec s vals)) ∧
    sql.Preload ⟨cfg, loc, some db⟩ col args = .ok (db.push (GCall.Preload col args)) ∧
    sql.Update ⟨cfg, loc, some db⟩ col args =
      .ok (db.push (GCall.Update col (Val.vlist args))) ∧
    sql.UpdateColumn ⟨cfg, loc, some db⟩ col args =
      .ok (db.push (GCall.UpdateColumn col (Val.vlist args))) ∧
    sql.Scopes ⟨cfg, loc, some db⟩ funcs = .ok (Gorm.Scopes db (scopesOf funcs)) ∧
    (scopesOf funcs).length = funcs.length ∧
    scopesOf [f1, f2] = [f2, f2] :=
  ⟨rfl, rfl, rfl, rfl, rfl, rfl, rfl, rfl, rfl, rfl, rfl, rfl, rfl, rfl, rfl,
    rfl, rfl, rfl, rfl, rfl, by simp [scopesOf], rfl⟩

/-- Non-regular directory entries contribute nothing to the migration
loop: the loop behaves on a listing exactly as on its regular entries
alone. -/
theorem migrateLoop_filter_regular (g : sql) (path : String) (l : List FileEntry) :
    migrateLoop g path l = migrateLoop g path (l.filter fun f => f.isRegular) := by
  induction l with
  | nil => rfl
  | cons f rest ih =>
    by_cases h : f.isRegular
    · simp [migrateLoop, h, ih]
    · simp [migrateLoop, h, ih]

/-- A migration-loop run over regular entries whose reads return the
statements `ss` and whose executions all succeed passes exactly the
statements `ss` to `Exec`, in order, and ends normally. -/
theorem migrateLoop_all_ok (cfg : dbConfig) (loc : Locale) (db : GormDB) (path : String)
    (l : List FileEntry) :
    ∀ ss : List String,
      l.map FileEntry.content = ss.map Except.ok →
      (∀ f ∈ l, f.isRegular = true) →
      (∀ s ∈ ss, db.env.errorF (db.hist ++ [GCall.Exec s []]) = none) →
      migrateLoop ⟨cfg, loc, some db⟩ path l = .ok (ss, .ok) := by
  induction l with
  | nil =>
    intro ss h _ _
    rw [List.map_nil] at h
    cases ss with
    | nil => rfl
    | cons a t => simp at h
  | cons f rest ih =>
    intro ss h hreg hex
    cases ss with
    | nil => simp at h
    | cons s st =>
      simp only [List.map_cons, List.cons.injEq] at h
      obtain ⟨h1, h2⟩ := h
      have hr : f.isRegular = true := hreg f (by simp)
      have hex1 : db.env.errorF (db.hist ++ [GCall.Exec s []]) = none := hex s (by simp)
      have ihr := ih st h2 (fun x hx => hreg x (by simp [hx]))
        (fun x hx => hex x (by simp [hx]))
      simp [migrateLoop, hr, parseSqlFile, h1, Gorm.Error, Gorm.Exec, GormDB.push,
        hex1, ihr]

/-- A migration-loop run over regular entries whose statements are
`pre ++ s :: post`, where every statement of `pre` executes cleanly and
`s` fails with error `e`, passes exactly `pre ++ [s]` to `Exec` and stops
through the fatal-log call carrying `e`; the statements of `post` are
never executed. -/
theorem migrateLoop_first_failure (cfg : dbConfig) (loc : Locale) (db : GormDB)
    (path : String) (pre : List String) :
    ∀ (l : List FileEntry) (s e : String) (post : List String),
      l.map FileEntry.content = (pre ++ s :: post).map Except.ok →
      (∀ f ∈ l, f.isRegular = true) →
      (∀ x ∈ pre, db.env.errorF (db.hist ++ [GCall.Exec x []]) = none) →
      db.env.errorF (db.hist ++ [GCall.Exec s []]) = some e →
      migrateLoop ⟨cfg, loc, some db⟩ path l =
        .ok (pre ++ [s], .fatal (loc "sql_migrate_err") e) := by
  induction pre with
  | nil =>
    intro l s e post h hreg _ hfail
    cases l with
    | nil => simp at h
    | cons f rest =>
      simp only [List.nil_append, List.map_cons, List.cons.injEq] at h
      obtain ⟨h1, _⟩ := h
      have hr : f.isRegular = true := hreg f (by simp)
      simp [migrateLoop, hr, parseSqlFile, h1, Gorm.Error, Gorm.Exec, GormDB.push, hfail]
  | cons x pre ih =>
    intro l s e post h hreg hpre hfail
    cases l with
    | nil => simp at h
    | cons f rest =>
      simp only [List.cons_append, List.map_cons, List.cons.injEq] at h
      obtain ⟨h1, h2⟩ := h
      have hr : f.isRegular = true := hreg f (by simp)
      have hx : db.env.errorF (db.hist ++ [GCall.Exec x []]) = none := hpre x (by simp)
      have ihr := ih rest s e post h2 (fun y hy => hreg y (by simp [hy]))
        (fun y hy => hpre y (by simp [hy])) hfail
      simp [migrateLoop, hr, parseSqlFile, h1, Gorm.Error, Gorm.Exec, GormDB.push,
        hx, ihr]

/-- C4: on a directory of regular files whose reads succeed and whose
statements all execute cleanly, `Migrate` scans the listing, sorts it
alphabetically by file name (the sorted listing is ordered and is a
permutation of the scanned one) and executes the raw textual contents of
each file as a statement in exactly that sorted order, ending normally. -/
theorem c4_migrate_sorted_execution (cfg : dbConfig) (loc : Locale) (db : GormDB)
    (path : String) (l : List FileEntry) (ss : List String)
    (hreg : ∀ f ∈ l, f.isRegular = true)
    (hcontent : (sortByName l).map FileEntry.content = ss.map Except.ok)
    (hexec : ∀ s ∈ ss, db.env.errorF (db.hist ++ [GCall.Exec s []]) = none) :
    Migrate ⟨cfg, loc, some db⟩ path (.entries l) = .ok (ss, .ok) ∧
    List.Sorted (fun a b : FileEntry => a.name.data ≤ b.name.data) (sortByName l) ∧
    (sortByName l).Perm l := by
  refine ⟨?_, ?_, ?_⟩
  · show migrateLoop ⟨cfg, loc, some db⟩ path (sortByName l) = .ok (ss, .ok)
    exact migrateLoop_all_ok cfg loc db path (sortByName l) ss hcontent
      (fun f hf => hreg f
        ((List.perm_insertionSort (fun a b : FileEntry => a.name.data ≤ b.name.data)
          l).mem_iff.mp hf))
      hexec
  · exact List.sorted_insertionSort (fun a b : FileEntry => a.name.data ≤ b.name.data) l
  · exact List.perm_insertionSort (fun a b : FileEntry => a.name.data ≤ b.name.data) l

/-- C4 witness: on a concrete two-file directory listed out of order, the
files are executed in alphabetical order of their names and the run ends
normally. -/
theorem c4_migrate_sorted_execution_witness :
    Migrate g0 "migrations"
        (.entries [⟨"02_b.sql", true, .ok "CREATE B"⟩, ⟨"01_a.sql", true, .ok "CREATE A"⟩]) =
      .ok (["CREATE A", "CREATE B"], .ok) :=
  (c4_migrate_sorted_execution cfg0 loc0 db0 "migrations"
    [⟨"02_b.sql", true, .ok "CREATE B"⟩, ⟨"01_a.sql", true, .ok "CREATE A"⟩]
    ["CREATE A", "CREATE B"] (by decide) (by decide) (fun s _ => rfl)).1

/-- C5: `Migrate` keeps no version tracking and performs no rollback: its
run is a pure function of the directory listing and the library's answers
alone (nothing recorded by an earlier run can influence it), and when the
statements of the sorted regular files are `pre ++ s :: post` with every
statement of `pre` succeeding and `s` failing with error `e`, the run
passes exactly `pre ++ [s]` to `Exec` — the files before the failing one
stay executed, the files after it are never executed — and terminates
through the fatal-log call carrying `e`. -/
theorem c5_migrate_failstop (cfg : dbConfig) (loc : Locale) (db : GormDB)
    (path : String) (l : List FileEntry) (pre : List String) (s e : String)
    (post : List String)
    (hreg : ∀ f ∈ l, f.isRegular = true)
    (hcontent : (sortByName l).map FileEntry.content = (pre ++ s :: post).map Except.ok)
    (hpre : ∀ x ∈ pre, db.env.errorF (db.hist ++ [GCall.Exec x []]) = none)
    (hfail : db.env.errorF (db.hist ++ [GCall.Exec s []]) = some e) :
    Migrate ⟨cfg, loc, some db⟩ path (.entries l) =
      .ok (pre ++ [s], .fatal (loc "sql_migrate_err") e) := by
  show migrateLoop ⟨cfg, loc, some db⟩ path (sortByName l) =
    .ok (pre ++ [s], .fatal (loc "sql_migrate_err") e)
  exact migrateLoop_first_failure cfg loc db path pre (sortByName l) s e post hcontent
    (fun f hf => hreg f
      ((List.perm_insertionSort (fun a b : FileEntry => a.name.data ≤ b.name.data)
        l).mem_iff.mp hf))
    hpre hfail

/-- C5 witness: on a concrete three-file directory whose alphabetically
second file fails to execute, the run executes the first file, attempts
the failing one, stops fatally with the library's error, and never touches
the third. -/
theorem c5_migrate_failstop_witness :
    Migrate gBad "migrations"
        (.entries [⟨"01", true, .ok "GOOD1"⟩, ⟨"03", true, .ok "NEVER"⟩,
          ⟨"02", true, .ok "BAD"⟩]) =
      .ok (["GOOD1", "BAD"], .fatal "sql_migrate_err" "boom") :=
  c5_migrate_failstop cfg0 loc0 dbBad "migrations"
    [⟨"01", true, .ok "GOOD1"⟩, ⟨"03", true, .ok "NEVER"⟩, ⟨"02", true, .ok "BAD"⟩]
    ["GOOD1"] "BAD" "boom" ["NEVER"] (by decide) (by decide) (by decide) (by decide)

/-- C8: `Migrate` executes only directory entries whose file mode is
regular: on any listing its run (the statements passed to `Exec` and the
outcome) is exactly the run of the loop on the sorted listing with every
non-regular entry removed, so no statement is ever executed for a
directory, symlink or device entry. -/
theorem c8_regular_only (cfg : dbConfig) (loc : Locale) (dbv : Option GormDB)
    (path : String) (l : List FileEntry) :
    Migrate ⟨cfg, loc, dbv⟩ path (.entries l) =
      migrateLoop ⟨cfg, loc, dbv⟩ path ((sortByName l).filter fun f => f.isRegular) :=
  migrateLoop_filter_regular ⟨cfg, loc, dbv⟩ path (sortByName l)

/-- C6: every error produced by the wrapped library during a wrapper
operation is either returned to the caller unchanged (`Rows`, `Error`,
`ScanRows`, `AddError`, `AutoMigrate`, `SetJoinTable`) or passed unchanged
to the generic fatal-log call (`InitSql`'s open and connection-retrieval
errors, `Close`'s retrieval and close errors, `Migrate`'s execution
errors); no library error is discarded or replaced by a different error
value. -/
theorem c6_errors_surfaced (cfg : dbConfig) (loc : Locale) (db dbc dbc2 : GormDB)
    (dbv : Option GormDB) (conn0 : SqlConn) (m v : Val) (col nm path : String)
    (vals : List Val) (rh : Nat) (e eo er ec ec2 em s : String)
    (hconn : dbc.env.dbConnF dbc.hist = .error ec)
    (hconn2 : dbc2.env.dbConnF dbc2.hist = .ok ())
    (hclose : dbc2.env.closeF dbc2.hist = some ec2)
    (hfail : db.env.errorF (db.hist ++ [GCall.Exec s []]) = some em) :
    sql.Rows ⟨cfg, loc, some db⟩ = .ok (Gorm.Rows db) ∧
    sql.Error ⟨cfg, loc, some db⟩ = .ok (Gorm.Error db) ∧
    sql.ScanRows ⟨cfg, loc, some db⟩ rh v = .ok (Gorm.ScanRows db rh v) ∧
    sql.AddError ⟨cfg, loc, some db⟩ e = .ok (Gorm.AddError db e) ∧
    sql.AutoMigrate ⟨cfg, loc, some db⟩ vals = .ok (Gorm.AutoMigrate db vals) ∧
    sql.SetJoinTable ⟨cfg, loc, some db⟩ m col v =
      .ok (Gorm.SetupJoinTable db m col v).2 ∧
    InitSql ⟨cfg, loc, dbv⟩ (fun _ => .error eo) (.ok conn0) =
      .fatal (loc "sql_open_conn_err") eo ∧
    InitSql ⟨cfg, loc, dbv⟩ (fun _ => .ok db) (.error er) =
      .fatal (loc "sql_retrieve_conn_err") er ∧
    sql.Close ⟨cfg, loc, some dbc⟩ = .ok (.fatal (loc "sql_close_conn_err") ec) ∧
    sql.Close ⟨cfg, loc, some dbc2⟩ = .ok (.fatal (loc "sql_close_conn_err") ec2) ∧
    Migrate ⟨cfg, loc, some db⟩ path (.entries [⟨nm, true, .ok s⟩]) =
      .ok ([s], .fatal (loc "sql_migrate_err") em) := by
  refine ⟨rfl, rfl, rfl, rfl, rfl,
    setJoinTable_returns_library_error cfg loc db m col v, rfl, rfl, ?_, ?_, ?_⟩
  · simp [sql.Close, hconn]
  · simp [sql.Close, hconn2, hclose]
  · show migrateLoop ⟨cfg, loc, some db⟩ path [⟨nm, true, .ok s⟩] =
      .ok ([s], .fatal (loc "sql_migrate_err") em)
    simp [migrateLoop, parseSqlFile, Gorm.Error, Gorm.Exec, GormDB.push, hfail]

/-- C6 witness: the error-path hypotheses are satisfiable — on concrete
handles whose library answers fail, `Close` fatal-logs the retrieval and
close errors unchanged and `Migrate` fatal-logs the execution error
unchanged, while `Rows` returns the library's answer unchanged. -/
theorem c6_errors_surfaced_witness :
    sql.Rows gBad = .ok (0, none) ∧
    sql.Close ⟨cfg0, loc0, some dbConnErr⟩ =
      .ok (.fatal "sql_close_conn_err" "no-conn") ∧
    sql.Close ⟨cfg0, loc0, some dbCloseErr⟩ =
      .ok (.fatal "sql_close_conn_err" "close-fail") ∧
    Migrate gBad "migrations" (.entries [⟨"001", true, .ok "BAD"⟩]) =
      .ok (["BAD"], .fatal "sql_migrate_err" "boom") := by
  obtain ⟨h1, _, _, _, _, _, _, _, h9, h10, h11⟩ :=
    c6_errors_surfaced cfg0 loc0 dbBad dbConnErr dbCloseErr none
      ⟨0, 0, 0⟩ (Val.vint 0) (Val.vint 0) "c" "001" "migrations" [] 0
      "e" "o" "r" "no-conn" "close-fail" "boom" "BAD"
      (by decide) (by decide) (by decide) (by decide)
  exact ⟨h1, h9, h10, h11⟩

end sqlwrapper
